import Mathlib

/-!
Verification of `agent_comm/tools/tdd_tools.py`.

The module under verification has three behaviourally meaningful pieces:

* `_ensure_dirs` — creates the two workspace directories with
  `os.makedirs(..., exist_ok=True)`;
* `write_test_file` / `write_code_file` — join a name onto the fixed base
  directory with `os.path.join`, open the target with mode `"w"` (truncate)
  and write the content, returning a dict
  `{status, file_path, content_preview}` where the preview is
  `content[:100]`;
* `run_shell_command` — runs a shell command with
  `subprocess.run(..., check=True)`, catching `CalledProcessError` and
  turning a non-zero exit into a `{status: "failed", ...}` dict.

The embedding below models the filesystem as an explicit state (`FS`): a
list of existing directories, an association list of file contents, and two
denial sets that abstract the environment conditions under which
`os.makedirs` or `open(..., "w")` raise an `OSError` (permissions, disk
full, missing parent of a nested name, path occupied by a non-directory).
Python exceptions are modelled by `Except`; process execution is a
parameter `runProc : String → ProcOutcome` giving the exit code and the
captured streams of the invoked process.

Python strings are sequences of code points, so the string operations used
by the code (`content[:100]`, `b.startswith("/")`, `path.endswith("/")`)
are modelled over `String.data : List Char`.
-/

/-- Python `s[:n]` on a `str`: the first `n` code points of `s`. -/
def strTake (s : String) (n : Nat) : String := ⟨s.data.take n⟩

/-- Python `s.startswith(p)`. -/
def strStartsWith (s p : String) : Bool :=
  decide (s.data.take p.data.length = p.data)

/-- Python `s.endswith(p)`. -/
def strEndsWith (s p : String) : Bool :=
  decide (p.data.length ≤ s.data.length ∧
          s.data.drop (s.data.length - p.data.length) = p.data)

/-- `os.path.join(a, b)` on POSIX (`posixpath.join` with one extra
component): an absolute `b` discards `a`; otherwise a separator is
inserted unless `a` is empty or already ends in one. -/
def ospath_join (a b : String) : String :=
  if strStartsWith b "/" then b
  else if a = "" then a ++ b
  else if strEndsWith a "/" then a ++ b
  else a ++ "/" ++ b

/-- `CODE_BASE_DIR = "simulated_codebase"` (tdd_tools.py line 8). -/
def CODE_BASE_DIR : String := "simulated_codebase"

/-- `TEST_BASE_DIR = "simulated_tests"` (tdd_tools.py line 9). -/
def TEST_BASE_DIR : String := "simulated_tests"

/-- A Python `OSError` carried by a propagating exception. -/
structure IOError where
  msg : String
deriving DecidableEq

/-- Filesystem state: existing directories, file contents, and the sets of
paths on which directory creation or opening for write would raise an
`OSError` (an abstraction of permissions, disk full, a missing parent
directory, or a non-directory occupying the path). -/
structure FS where
  dirs : List String
  files : List (String × String)
  deniedDirs : List String
  deniedFiles : List String
deriving DecidableEq

/-- Write `content` at `path` in an association list, replacing any
existing entry for `path` (the effect of opening with mode `"w"` and
writing: truncate or create, never append). -/
def setFile (path content : String) : List (String × String) → List (String × String)
  | [] => [(path, content)]
  | (p, c) :: rest =>
    if p = path then (p, content) :: rest
    else (p, c) :: setFile path content rest

/-- Look up the content stored at `path`. -/
def lookupFile (path : String) : List (String × String) → Option String
  | [] => none
  | (p, c) :: rest => if p = path then some c else lookupFile path rest

/-- Reading the file at `path` back from the filesystem state. -/
def readFile (path : String) (fs : FS) : Option String :=
  lookupFile path fs.files

/-- `os.makedirs(path, exist_ok=True)`: silently succeeds when the
directory already exists, otherwise creates it — unless the environment
denies creation, in which case the `OSError` propagates. -/
def makedirs (path : String) (fs : FS) : Except IOError FS :=
  if path ∈ fs.dirs then Except.ok fs
  else if path ∈ fs.deniedDirs then
    Except.error ⟨"could not create directory " ++ path⟩
  else Except.ok { fs with dirs := path :: fs.dirs }

/-- `_ensure_dirs()` (tdd_tools.py lines 11-13): `os.makedirs` on
`CODE_BASE_DIR` then on `TEST_BASE_DIR`, both with `exist_ok=True`; an
exception from either call propagates. -/
def _ensure_dirs (fs : FS) : Except IOError FS :=
  match makedirs CODE_BASE_DIR fs with
  | Except.error e => Except.error e
  | Except.ok fs₁ => makedirs TEST_BASE_DIR fs₁

/-- `open(file_path, "w")` followed by `f.write(content)`: creates or
fully overwrites the file; opening fails with an `OSError` exactly for the
paths in `deniedFiles`. -/
def writeFileFS (path content : String) (fs : FS) : Except IOError FS :=
  if path ∈ fs.deniedFiles then
    Except.error ⟨"could not open for writing " ++ path⟩
  else Except.ok { fs with files := setFile path content fs.files }

/-- The dict returned by the two write helpers:
`{"status": "success", "file_path": ..., "content_preview": ...}`. -/
structure WriteResult where
  status : String
  file_path : String
  content_preview : String
deriving DecidableEq

/-- `write_test_file(test_name, test_content)` (tdd_tools.py lines 23-35):
`_ensure_dirs()`, `file_path = os.path.join(TEST_BASE_DIR, test_name)`,
write the content, and return the result dict with
`content_preview = test_content[:100]`. Exceptions propagate. -/
def write_test_file (test_name test_content : String) (fs : FS) :
    Except IOError (FS × WriteResult) :=
  match _ensure_dirs fs with
  | Except.error e => Except.error e
  | Except.ok fs₁ =>
    match writeFileFS (ospath_join TEST_BASE_DIR test_name) test_content fs₁ with
    | Except.error e => Except.error e
    | Except.ok fs₂ =>
      Except.ok (fs₂,
        { status := "success",
          file_path := ospath_join TEST_BASE_DIR test_name,
          content_preview := strTake test_content 100 })

/-- `write_code_file(module_name, code_content)` (tdd_tools.py lines
37-49): identical to `write_test_file` except that it targets
`CODE_BASE_DIR`. -/
def write_code_file (module_name code_content : String) (fs : FS) :
    Except IOError (FS × WriteResult) :=
  match _ensure_dirs fs with
  | Except.error e => Except.error e
  | Except.ok fs₁ =>
    match writeFileFS (ospath_join CODE_BASE_DIR module_name) code_content fs₁ with
    | Except.error e => Except.error e
    | Except.ok fs₂ =>
      Except.ok (fs₂,
        { status := "success",
          file_path := ospath_join CODE_BASE_DIR module_name,
          content_preview := strTake code_content 100 })

/-- Calling `_ensure_dirs` `n` times in sequence, an exception stopping the
sequence (used to state idempotence of directory provisioning). -/
def ensureN : Nat → FS → Except IOError FS
  | 0, fs => Except.ok fs
  | Nat.succ n, fs =>
    match _ensure_dirs fs with
    | Except.error e => Except.error e
    | Except.ok fs₁ => ensureN n fs₁

/-- Outcome of the process spawned by `subprocess.run(command, shell=True,
capture_output=True, text=True)`: `returncode` (negative when killed by a
signal) and the captured streams. -/
structure ProcOutcome where
  returncode : Int
  stdout : String
  stderr : String
deriving DecidableEq

/-- The dict returned by `run_shell_command`; `error` is `none` on the
success path (the success dict has no `error` key). -/
structure CommandResult where
  status : String
  command : String
  stdout : String
  stderr : String
  error : Option String
deriving DecidableEq

/-- Rendering of `str(e)` for `e : subprocess.CalledProcessError` (the
quoting of the command and the naming of signals in CPython are elided;
the shape `Command ... returned non-zero exit status N.` /
`Command ... died with signal N.` is kept). -/
def calledProcessErrorStr (cmd : String) (returncode : Int) : String :=
  if returncode < 0 then
    "Command " ++ cmd ++ " died with signal " ++ toString (-returncode) ++ "."
  else
    "Command " ++ cmd ++ " returned non-zero exit status " ++ toString returncode ++ "."

/-- `run_shell_command(command)` (tdd_tools.py lines 97-108):
`subprocess.run(..., check=True)` raises `CalledProcessError` exactly when
the exit code is non-zero; the `except` clause catches it and returns the
failure dict with `error = str(e)`, so the non-zero exit never propagates
as an exception. -/
def run_shell_command (runProc : String → ProcOutcome) (command : String) :
    CommandResult :=
  let result := runProc command
  if result.returncode = 0 then
    { status := "success", command := command, stdout := result.stdout,
      stderr := result.stderr, error := none }
  else
    { status := "failed", command := command, stdout := result.stdout,
      stderr := result.stderr,
      error := some (calledProcessErrorStr command result.returncode) }

/-- The empty filesystem: no directories, no files, nothing denied. -/
def emptyFS : FS := ⟨[], [], [], []⟩

/-- The filesystem after provisioning both workspace directories. -/
def readyFS : FS := ⟨[TEST_BASE_DIR, CODE_BASE_DIR], [], [], []⟩

/-- A filesystem in which creating `CODE_BASE_DIR` is denied. -/
def mkdirDeniedFS : FS := ⟨[], [], [CODE_BASE_DIR], []⟩

/-- A process that always exits with code 1 (the behaviour of `false`). -/
def procFail : String → ProcOutcome := fun _ => ⟨1, "out", "err"⟩

instance {ε α : Type} [DecidableEq ε] [DecidableEq α] : DecidableEq (Except ε α) :=
  fun a b =>
    match a, b with
    | Except.ok x, Except.ok y =>
      if h : x = y then isTrue (by rw [h]) else isFalse (by simp [h])
    | Except.error x, Except.error y =>
      if h : x = y then isTrue (by rw [h]) else isFalse (by simp [h])
    | Except.ok _, Except.error _ => isFalse (by simp)
    | Except.error _, Except.ok _ => isFalse (by simp)

/-- Writing twice at the same path keeps only the second content. -/
theorem setFile_setFile (p c₁ c₂ : String) (l : List (String × String)) :
    setFile p c₂ (setFile p c₁ l) = setFile p c₂ l := by
  induction l with
  | nil => simp [setFile]
  | cons hd tl ih =>
    obtain ⟨q, c⟩ := hd
    by_cases hq : q = p <;> simp [setFile, hq, ih]

/-- Reading back a just-written path yields the written content. -/
theorem lookupFile_setFile (p c : String) (l : List (String × String)) :
    lookupFile p (setFile p c l) = some c := by
  induction l with
  | nil => simp [setFile, lookupFile]
  | cons hd tl ih =>
    obtain ⟨q, cq⟩ := hd
    by_cases hq : q = p <;> simp [setFile, lookupFile, hq, ih]

/-- Taking at least the whole length of a string returns it unchanged. -/
theorem strTake_eq_of_length_le (s : String) (n : Nat) (h : s.length ≤ n) :
    strTake s n = s := by
  cases s with
  | mk l =>
    show (⟨List.take n l⟩ : String) = ⟨l⟩
    rw [List.take_of_length_le h]

/-- An absolute second component makes `os.path.join` discard the first. -/
theorem ospath_join_absolute (a b : String) (h : strStartsWith b "/" = true) :
    ospath_join a b = b := by
  simp [ospath_join, h]

/-- Joining a relative name onto a nonempty base directory that does not
end in a separator inserts exactly one separator. -/
theorem ospath_join_relative (a b : String) (ha : ¬ a = "")
    (he : strEndsWith a "/" = false) (hb : strStartsWith b "/" = false) :
    ospath_join a b = a ++ "/" ++ b := by
  simp [ospath_join, ha, he, hb]

/-- A successful `makedirs` changes nothing but possibly the directory
list, where it adds `path` and keeps every previous entry. -/
theorem makedirs_ok_elim (path : String) (fs fs' : FS)
    (h : makedirs path fs = Except.ok fs') :
    fs'.files = fs.files ∧ fs'.deniedDirs = fs.deniedDirs ∧
    fs'.deniedFiles = fs.deniedFiles ∧ path ∈ fs'.dirs ∧
    ∀ q, q ∈ fs.dirs → q ∈ fs'.dirs := by
  unfold makedirs at h
  split at h
  next hmem =>
    injection h with h₂
    subst h₂
    exact ⟨rfl, rfl, rfl, hmem, fun q hq => hq⟩
  next =>
    split at h
    next => exact Except.noConfusion h
    next =>
      injection h with h₂
      subst h₂
      exact ⟨rfl, rfl, rfl, List.mem_cons_self path fs.dirs,
        fun q hq => List.mem_cons_of_mem _ hq⟩

/-- A successful `_ensure_dirs` leaves files and denial sets unchanged and
guarantees that both workspace directories exist. -/
theorem ensure_dirs_ok_elim (fs fs' : FS) (h : _ensure_dirs fs = Except.ok fs') :
    fs'.files = fs.files ∧ fs'.deniedDirs = fs.deniedDirs ∧
    fs'.deniedFiles = fs.deniedFiles ∧
    CODE_BASE_DIR ∈ fs'.dirs ∧ TEST_BASE_DIR ∈ fs'.dirs := by
  unfold _ensure_dirs at h
  split at h
  next => exact Except.noConfusion h
  next fs₁ h₁ =>
    obtain ⟨hf₁, hdd₁, hdf₁, hc₁, hmono₁⟩ := makedirs_ok_elim _ _ _ h₁
    obtain ⟨hf₂, hdd₂, hdf₂, ht₂, hmono₂⟩ := makedirs_ok_elim _ _ _ h
    exact ⟨hf₂.trans hf₁, hdd₂.trans hdd₁, hdf₂.trans hdf₁, hmono₂ _ hc₁, ht₂⟩

/-- When both workspace directories already exist, `_ensure_dirs` succeeds
and changes nothing. -/
theorem ensure_dirs_of_mem (fs : FS) (hc : CODE_BASE_DIR ∈ fs.dirs)
    (ht : TEST_BASE_DIR ∈ fs.dirs) : _ensure_dirs fs = Except.ok fs := by
  unfold _ensure_dirs makedirs
  simp [hc, ht]

/-- The state produced by a successful `_ensure_dirs` is a fixed point of
`_ensure_dirs`. -/
theorem ensure_dirs_idem_step (fs fs' : FS) (h : _ensure_dirs fs = Except.ok fs') :
    _ensure_dirs fs' = Except.ok fs' := by
  obtain ⟨-, -, -, hc, ht⟩ := ensure_dirs_ok_elim fs fs' h
  exact ensure_dirs_of_mem fs' hc ht

/-- Inversion of a successful `write_test_file`: the provisioning
succeeded, the target path was writable, the new state holds the content
at the joined path, and the result dict has exactly the three fields the
code builds. -/
theorem write_test_file_ok_elim (name content : String) (fs fs' : FS)
    (r : WriteResult) (h : write_test_file name content fs = Except.ok (fs', r)) :
    ∃ fsE, _ensure_dirs fs = Except.ok fsE ∧
      ospath_join TEST_BASE_DIR name ∉ fsE.deniedFiles ∧
      fs' = { fsE with
        files := setFile (ospath_join TEST_BASE_DIR name) content fsE.files } ∧
      r = ⟨"success", ospath_join TEST_BASE_DIR name, strTake content 100⟩ := by
  unfold write_test_file at h
  split at h
  next => exact Except.noConfusion h
  next fsE hE =>
    split at h
    next => exact Except.noConfusion h
    next fsW hW =>
      unfold writeFileFS at hW
      split at hW
      next => exact Except.noConfusion hW
      next hd =>
        injection hW with hW₂
        subst hW₂
        simp only [Except.ok.injEq, Prod.mk.injEq] at h
        exact ⟨fsE, hE, hd, h.1.symm, h.2.symm⟩

/-- Inversion of a successful `write_code_file`, mirror image of
`write_test_file_ok_elim`. -/
theorem write_code_file_ok_elim (name content : String) (fs fs' : FS)
    (r : WriteResult) (h : write_code_file name content fs = Except.ok (fs', r)) :
    ∃ fsE, _ensure_dirs fs = Except.ok fsE ∧
      ospath_join CODE_BASE_DIR name ∉ fsE.deniedFiles ∧
      fs' = { fsE with
        files := setFile (ospath_join CODE_BASE_DIR name) content fsE.files } ∧
      r = ⟨"success", ospath_join CODE_BASE_DIR name, strTake content 100⟩ := by
  unfold write_code_file at h
  split at h
  next => exact Except.noConfusion h
  next fsE hE =>
    split at h
    next => exact Except.noConfusion h
    next fsW hW =>
      unfold writeFileFS at hW
      split at hW
      next => exact Except.noConfusion hW
      next hd =>
        injection hW with hW₂
        subst hW₂
        simp only [Except.ok.injEq, Prod.mk.injEq] at h
        exact ⟨fsE, hE, hd, h.1.symm, h.2.symm⟩

/-- Forward computation of `write_test_file` when provisioning succeeds
and the target path is writable. -/
theorem write_test_file_intro (name content : String) (fs fsE : FS)
    (hE : _ensure_dirs fs = Except.ok fsE)
    (hd : ospath_join TEST_BASE_DIR name ∉ fsE.deniedFiles) :
    write_test_file name content fs = Except.ok
      ({ fsE with
         files := setFile (ospath_join TEST_BASE_DIR name) content fsE.files },
       ⟨"success", ospath_join TEST_BASE_DIR name, strTake content 100⟩) := by
  unfold write_test_file writeFileFS
  rw [hE]
  simp [hd]

/-- Forward computation of `write_code_file` when provisioning succeeds
and the target path is writable. -/
theorem write_code_file_intro (name content : String) (fs fsE : FS)
    (hE : _ensure_dirs fs = Except.ok fsE)
    (hd : ospath_join CODE_BASE_DIR name ∉ fsE.deniedFiles) :
    write_code_file name content fs = Except.ok
      ({ fsE with
         files := setFile (ospath_join CODE_BASE_DIR name) content fsE.files },
       ⟨"success", ospath_join CODE_BASE_DIR name, strTake content 100⟩) := by
  unfold write_code_file writeFileFS
  rw [hE]
  simp [hd]

/-- The rendering of a `CalledProcessError` is never the empty string. -/
theorem calledProcessErrorStr_ne_empty (cmd : String) (rc : Int) :
    calledProcessErrorStr cmd rc ≠ "" := by
  unfold calledProcessErrorStr
  split
  next =>
    intro h
    have hl := congrArg String.length h
    repeat rw [String.length_append] at hl
    rw [show ("Command " : String).length = 8 from rfl] at hl
    rw [show ("" : String).length = 0 from rfl] at hl
    omega
  next =>
    intro h
    have hl := congrArg String.length h
    repeat rw [String.length_append] at hl
    rw [show ("Command " : String).length = 8 from rfl] at hl
    rw [show ("" : String).length = 0 from rfl] at hl
    omega

/-- C1: for every command, `run_shell_command` returns status `success`
iff the invoked process exits with code zero; on a non-zero exit it
returns status `failed` with the captured stdout, stderr and an error
description, the failure being returned as data rather than raised; and
in both cases the result carries the original command string. -/
theorem run_shell_command_status_iff_exit (runProc : String → ProcOutcome)
    (command : String) :
    ((run_shell_command runProc command).status = "success" ↔
      (runProc command).returncode = 0) ∧
    (run_shell_command runProc command).command = command ∧
    ((runProc command).returncode ≠ 0 →
      (run_shell_command runProc command).status = "failed" ∧
      (run_shell_command runProc command).stdout = (runProc command).stdout ∧
      (run_shell_command runProc command).stderr = (runProc command).stderr ∧
      (run_shell_command runProc command).error =
        some (calledProcessErrorStr command (runProc command).returncode)) := by
  have hne : ("failed" : String) ≠ "success" := by decide
  by_cases h : (runProc command).returncode = 0 <;>
    simp [run_shell_command, h, hne]

/-- Witness for C1: a process that exits with code 1 yields the failure
dict with the captured streams and the rendered error. -/
theorem run_shell_command_status_iff_exit_witness :
    (run_shell_command procFail "false").status = "failed" ∧
    (run_shell_command procFail "false").stdout = "out" ∧
    (run_shell_command procFail "false").stderr = "err" ∧
    (run_shell_command procFail "false").error =
      some (calledProcessErrorStr "false" 1) :=
  (run_shell_command_status_iff_exit procFail "false").2.2 (by decide)

/-- C2: for every name and content, the `content_preview` field of the
result of `write_test_file` and of `write_code_file` is the first 100
characters of the content, and for content of length at most 100 (the
empty string included) it is the content unchanged. -/
theorem write_preview_first_100 (name content : String) (fs fs' : FS)
    (r : WriteResult)
    (h : write_test_file name content fs = Except.ok (fs', r) ∨
         write_code_file name content fs = Except.ok (fs', r)) :
    r.content_preview = strTake content 100 ∧
    (content.length ≤ 100 → r.content_preview = content) := by
  have hr : r.content_preview = strTake content 100 := by
    cases h with
    | inl h =>
      obtain ⟨fsE, -, -, -, hr⟩ := write_test_file_ok_elim _ _ _ _ _ h
      rw [hr]
    | inr h =>
      obtain ⟨fsE, -, -, -, hr⟩ := write_code_file_ok_elim _ _ _ _ _ h
      rw [hr]
  exact ⟨hr, fun hle => hr.trans (strTake_eq_of_length_le content 100 hle)⟩

/-- Witness for C2 at empty content written to the empty filesystem. -/
theorem write_preview_first_100_witness :
    (⟨"success", "simulated_tests/a.py", ""⟩ : WriteResult).content_preview =
      strTake "" 100 ∧
    (String.length "" ≤ 100 →
      (⟨"success", "simulated_tests/a.py", ""⟩ : WriteResult).content_preview = "") :=
  write_preview_first_100 "a.py" "" emptyFS
    ⟨[TEST_BASE_DIR, CODE_BASE_DIR], [("simulated_tests/a.py", "")], [], []⟩
    ⟨"success", "simulated_tests/a.py", ""⟩ (Or.inl (by decide))

/-- C3: whenever `write_code_file` returns a result, reading the file at
the resolved path in the resulting filesystem state yields exactly the
written content, for every starting state in which the call succeeds
(directories are provisioned first and the file fully overwritten). -/
theorem write_code_file_roundtrip (name content : String) (fs fs' : FS)
    (r : WriteResult)
    (h : write_code_file name content fs = Except.ok (fs', r)) :
    readFile r.file_path fs' = some content := by
  obtain ⟨fsE, -, -, hfs, hr⟩ := write_code_file_ok_elim _ _ _ _ _ h
  subst hfs
  subst hr
  exact lookupFile_setFile _ _ _

/-- Witness for C3 on the empty filesystem, where neither workspace
directory nor the target file existed beforehand. -/
theorem write_code_file_roundtrip_witness :
    readFile
      (⟨"success", "simulated_codebase/m.py", "x = 1"⟩ : WriteResult).file_path
      ⟨[TEST_BASE_DIR, CODE_BASE_DIR], [("simulated_codebase/m.py", "x = 1")], [], []⟩ =
      some "x = 1" :=
  write_code_file_roundtrip "m.py" "x = 1" emptyFS
    ⟨[TEST_BASE_DIR, CODE_BASE_DIR], [("simulated_codebase/m.py", "x = 1")], [], []⟩
    ⟨"success", "simulated_codebase/m.py", "x = 1"⟩ (by decide)

/-- C7: every command whose process exits non-zero produces a result with
status `failed` whose error-description field holds a non-empty string. -/
theorem run_shell_command_failed_error_nonempty (runProc : String → ProcOutcome)
    (command : String) (h : (runProc command).returncode ≠ 0) :
    (run_shell_command runProc command).status = "failed" ∧
    ∃ s, (run_shell_command runProc command).error = some s ∧ s ≠ "" := by
  refine ⟨by simp [run_shell_command, h], ?_⟩
  exact ⟨calledProcessErrorStr command (runProc command).returncode,
    by simp [run_shell_command, h], calledProcessErrorStr_ne_empty _ _⟩

/-- Witness for C7 with a process that exits with code 1. -/
theorem run_shell_command_failed_error_nonempty_witness :
    (run_shell_command procFail "false").status = "failed" ∧
    ∃ s, (run_shell_command procFail "false").error = some s ∧ s ≠ "" :=
  run_shell_command_failed_error_nonempty procFail "false" (by decide)

/-- C10: whenever `write_test_file` or `write_code_file` returns a result
record at all, its status field is exactly the string `success`; no
failure is ever reported in-band by these operations. -/
theorem write_result_status_always_success (name content : String) (fs fs' : FS)
    (r : WriteResult)
    (h : write_test_file name content fs = Except.ok (fs', r) ∨
         write_code_file name content fs = Except.ok (fs', r)) :
    r.status = "success" := by
  cases h with
  | inl h =>
    obtain ⟨fsE, -, -, -, hr⟩ := write_test_file_ok_elim _ _ _ _ _ h
    rw [hr]
  | inr h =>
    obtain ⟨fsE, -, -, -, hr⟩ := write_code_file_ok_elim _ _ _ _ _ h
    rw [hr]

/-- Witness for C10 through `write_code_file` on the empty filesystem. -/
theorem write_result_status_always_success_witness :
    (⟨"success", "simulated_codebase/w.py", "pass"⟩ : WriteResult).status =
      "success" :=
  write_result_status_always_success "w.py" "pass" emptyFS
    ⟨[TEST_BASE_DIR, CODE_BASE_DIR], [("simulated_codebase/w.py", "pass")], [], []⟩
    ⟨"success", "simulated_codebase/w.py", "pass"⟩ (Or.inr (by decide))

/-- C4: writing a second time under the same name replaces the first
content rather than appending: the second write from the once-written
state returns exactly what a single write of the second content from the
original state returns, and the file then contains exactly the second
content; this holds for `write_test_file` and for `write_code_file`. -/
theorem write_overwrite_semantics (name c₁ c₂ : String) (fs fs₁ : FS)
    (r₁ : WriteResult) :
    (write_test_file name c₁ fs = Except.ok (fs₁, r₁) →
      write_test_file name c₂ fs₁ = write_test_file name c₂ fs ∧
      ∃ fs₂ r₂, write_test_file name c₂ fs₁ = Except.ok (fs₂, r₂) ∧
        readFile r₂.file_path fs₂ = some c₂) ∧
    (write_code_file name c₁ fs = Except.ok (fs₁, r₁) →
      write_code_file name c₂ fs₁ = write_code_file name c₂ fs ∧
      ∃ fs₂ r₂, write_code_file name c₂ fs₁ = Except.ok (fs₂, r₂) ∧
        readFile r₂.file_path fs₂ = some c₂) := by
  constructor
  · intro h
    obtain ⟨fsE, hE, hd, hfs₁, -⟩ := write_test_file_ok_elim _ _ _ _ _ h
    subst hfs₁
    obtain ⟨-, -, -, hc, ht⟩ := ensure_dirs_ok_elim _ _ hE
    have hE₁ : _ensure_dirs
        { fsE with files := setFile (ospath_join TEST_BASE_DIR name) c₁ fsE.files } =
      Except.ok
        { fsE with files := setFile (ospath_join TEST_BASE_DIR name) c₁ fsE.files } :=
      ensure_dirs_of_mem _ hc ht
    have w₁ := write_test_file_intro name c₂ _ _ hE₁ hd
    have w₂ := write_test_file_intro name c₂ fs fsE hE hd
    refine ⟨?_, _, _, w₁, ?_⟩
    · rw [w₁, w₂]
      simp [setFile_setFile]
    · exact lookupFile_setFile _ _ _
  · intro h
    obtain ⟨fsE, hE, hd, hfs₁, -⟩ := write_code_file_ok_elim _ _ _ _ _ h
    subst hfs₁
    obtain ⟨-, -, -, hc, ht⟩ := ensure_dirs_ok_elim _ _ hE
    have hE₁ : _ensure_dirs
        { fsE with files := setFile (ospath_join CODE_BASE_DIR name) c₁ fsE.files } =
      Except.ok
        { fsE with files := setFile (ospath_join CODE_BASE_DIR name) c₁ fsE.files } :=
      ensure_dirs_of_mem _ hc ht
    have w₁ := write_code_file_intro name c₂ _ _ hE₁ hd
    have w₂ := write_code_file_intro name c₂ fs fsE hE hd
    refine ⟨?_, _, _, w₁, ?_⟩
    · rw [w₁, w₂]
      simp [setFile_setFile]
    · exact lookupFile_setFile _ _ _

/-- Witness for C4: writing `A` then `B` under one name on the empty
filesystem equals a single write of `B`, and the file then holds `B`. -/
theorem write_overwrite_semantics_witness :
    (write_test_file "a.py" "B"
        ⟨[TEST_BASE_DIR, CODE_BASE_DIR], [("simulated_tests/a.py", "A")], [], []⟩ =
      write_test_file "a.py" "B" emptyFS) ∧
    ∃ fs₂ r₂, write_test_file "a.py" "B"
        ⟨[TEST_BASE_DIR, CODE_BASE_DIR], [("simulated_tests/a.py", "A")], [], []⟩ =
        Except.ok (fs₂, r₂) ∧
      readFile r₂.file_path fs₂ = some "B" :=
  (write_overwrite_semantics "a.py" "A" "B" emptyFS
    ⟨[TEST_BASE_DIR, CODE_BASE_DIR], [("simulated_tests/a.py", "A")], [], []⟩
    ⟨"success", "simulated_tests/a.py", "A"⟩).1 (by decide)

/-- C5: directory provisioning is idempotent: when a call succeeds, N ≥ 1
consecutive calls produce exactly the state of the single call, and a
call on a state in which both directories already exist succeeds and
changes nothing. -/
theorem ensure_dirs_idempotent :
    (∀ fs fs' n, _ensure_dirs fs = Except.ok fs' → 1 ≤ n →
      ensureN n fs = Except.ok fs') ∧
    (∀ fs, CODE_BASE_DIR ∈ fs.dirs → TEST_BASE_DIR ∈ fs.dirs →
      _ensure_dirs fs = Except.ok fs) := by
  constructor
  · intro fs fs' n
    induction n generalizing fs with
    | zero => intro h hn; omega
    | succ m ih =>
      intro h hn
      have hred : ensureN (m + 1) fs = ensureN m fs' := by
        show (match _ensure_dirs fs with
              | Except.error e => Except.error e
              | Except.ok fs₁ => ensureN m fs₁) = ensureN m fs'
        rw [h]
      cases m with
      | zero => rw [hred]; rfl
      | succ k =>
        rw [hred]
        exact ih fs' (ensure_dirs_idem_step fs fs' h) (by omega)
  · intro fs hc ht
    exact ensure_dirs_of_mem fs hc ht

/-- Witness for C5: three provisioning calls on the empty filesystem give
the state of one call, and a call on the provisioned state is identity. -/
theorem ensure_dirs_idempotent_witness :
    ensureN 3 emptyFS = Except.ok readyFS ∧
    _ensure_dirs readyFS = Except.ok readyFS :=
  ⟨ensure_dirs_idempotent.1 emptyFS readyFS 3 (by decide) (by decide),
   ensure_dirs_idempotent.2 readyFS (by decide) (by decide)⟩

/-- C6: an IO error raised while provisioning the directories or while
opening the target file propagates out of `write_test_file` and
`write_code_file` as that exception, and no result record is returned in
that case (the fault is never encoded in the returned structure). -/
theorem write_io_fault_propagates (name content : String) (fs : FS) :
    (∀ e, _ensure_dirs fs = Except.error e →
      write_test_file name content fs = Except.error e ∧
      write_code_file name content fs = Except.error e) ∧
    (∀ fsE, _ensure_dirs fs = Except.ok fsE →
      (∀ e, writeFileFS (ospath_join TEST_BASE_DIR name) content fsE =
          Except.error e →
        write_test_file name content fs = Except.error e) ∧
      (∀ e, writeFileFS (ospath_join CODE_BASE_DIR name) content fsE =
          Except.error e →
        write_code_file name content fs = Except.error e)) := by
  refine ⟨fun e he => ⟨?_, ?_⟩, fun fsE hE => ⟨fun e he => ?_, fun e he => ?_⟩⟩
  · unfold write_test_file
    rw [he]
  · unfold write_code_file
    rw [he]
  · unfold write_test_file
    simp [hE, he]
  · unfold write_code_file
    simp [hE, he]

/-- Witness for C6: with creation of the code directory denied, the write
returns the propagated error and no record. -/
theorem write_io_fault_propagates_witness :
    write_test_file "a.py" "x" mkdirDeniedFS =
      Except.error ⟨"could not create directory " ++ CODE_BASE_DIR⟩ :=
  ((write_io_fault_propagates "a.py" "x" mkdirDeniedFS).1
    ⟨"could not create directory " ++ CODE_BASE_DIR⟩ (by decide)).1

/-- C8: the concrete scenario: writing the 25-character test snippet under
the name test_calc.py succeeds, the resolved path ends with test_calc.py,
and the preview is the whole snippet, whose length is below 100. -/
theorem write_test_file_scenario :
    ∃ fs' r,
      write_test_file "test_calc.py" "def test_x(): assert 1==1" emptyFS =
        Except.ok (fs', r) ∧
      r.status = "success" ∧
      strEndsWith r.file_path "test_calc.py" = true ∧
      r.content_preview = "def test_x(): assert 1==1" ∧
      String.length "def test_x(): assert 1==1" < 100 := by
  refine ⟨⟨[TEST_BASE_DIR, CODE_BASE_DIR],
      [("simulated_tests/test_calc.py", "def test_x(): assert 1==1")], [], []⟩,
    ⟨"success", "simulated_tests/test_calc.py", "def test_x(): assert 1==1"⟩,
    ?_, ?_, ?_, ?_, ?_⟩ <;> decide

/-- C9: an absolute name makes the path join discard the target-directory
prefix, so the resolved file_path is the name itself and the file is
written at that path, outside the workspace; a relative name resolves to
the target directory joined with the name. -/
theorem absolute_name_resolution (name content : String) (fs fs' : FS)
    (r : WriteResult) :
    (write_test_file name content fs = Except.ok (fs', r) →
      (strStartsWith name "/" = true →
        r.file_path = name ∧ readFile name fs' = some content) ∧
      (strStartsWith name "/" = false →
        r.file_path = TEST_BASE_DIR ++ "/" ++ name)) ∧
    (write_code_file name content fs = Except.ok (fs', r) →
      (strStartsWith name "/" = true →
        r.file_path = name ∧ readFile name fs' = some content) ∧
      (strStartsWith name "/" = false →
        r.file_path = CODE_BASE_DIR ++ "/" ++ name)) := by
  constructor
  · intro h
    obtain ⟨fsE, -, -, hfs, hr⟩ := write_test_file_ok_elim _ _ _ _ _ h
    subst hfs
    subst hr
    constructor
    · intro habs
      refine ⟨?_, ?_⟩
      · show ospath_join TEST_BASE_DIR name = name
        exact ospath_join_absolute _ _ habs
      · show lookupFile name
          (setFile (ospath_join TEST_BASE_DIR name) content fsE.files) = some content
        rw [ospath_join_absolute _ _ habs]
        exact lookupFile_setFile _ _ _
    · intro hrel
      show ospath_join TEST_BASE_DIR name = TEST_BASE_DIR ++ "/" ++ name
      exact ospath_join_relative _ _ (by decide) (by decide) hrel
  · intro h
    obtain ⟨fsE, -, -, hfs, hr⟩ := write_code_file_ok_elim _ _ _ _ _ h
    subst hfs
    subst hr
    constructor
    · intro habs
      refine ⟨?_, ?_⟩
      · show ospath_join CODE_BASE_DIR name = name
        exact ospath_join_absolute _ _ habs
      · show lookupFile name
          (setFile (ospath_join CODE_BASE_DIR name) content fsE.files) = some content
        rw [ospath_join_absolute _ _ habs]
        exact lookupFile_setFile _ _ _
    · intro hrel
      show ospath_join CODE_BASE_DIR name = CODE_BASE_DIR ++ "/" ++ name
      exact ospath_join_relative _ _ (by decide) (by decide) hrel

/-- Witness for C9: the absolute name /tmp/x.py resolves to itself and the
file lands at /tmp/x.py, not under the test workspace. -/
theorem absolute_name_resolution_witness :
    (⟨"success", "/tmp/x.py", "X"⟩ : WriteResult).file_path = "/tmp/x.py" ∧
    readFile "/tmp/x.py"
      ⟨[TEST_BASE_DIR, CODE_BASE_DIR], [("/tmp/x.py", "X")], [], []⟩ = some "X" :=
  ((absolute_name_resolution "/tmp/x.py" "X" emptyFS
    ⟨[TEST_BASE_DIR, CODE_BASE_DIR], [("/tmp/x.py", "X")], [], []⟩
    ⟨"success", "/tmp/x.py", "X"⟩).1 (by decide)).1 (by decide)
